import Mathlib

/-!
# Verification of the INMAX campaign data-access core

Shallow embedding of the client-side data-access and state-reconciliation
layer of the INMAX campaign dashboard: the persisted local store adapter,
the campaign repository (localStorage CRUD), the stats engine
(`calculateRealStats`), and the reconciling campaign service.

JavaScript specifics modelled explicitly:
* `a || b` on numbers treats `0` (and `undefined`) as falsy: modelled by
  `jsOrOpt` / `jsOrVal`, which fall through on `0`.
* `Date.now()` and `new Date().toISOString()` are explicit parameters
  (`nowMs : Nat`, `nowIso : String`) threaded to the operations that read
  the clock.
* `Math.random()`-derived draws in the percentage-change placeholder are an
  explicit parameter (`rand : Fin 6 → ℚ`), one draw per metric.
* `localStorage` cells are `StoredCell` values: absent, corrupt
  (deserialization throws, caught), or a deserialized value.
* Remote (axios) outcomes are `RemoteResult` values: success or failure
  with an HTTP-style status code.  A thrown error in a `catch` block is a
  `failure`.
-/

namespace Inmax

/-- Nested `stats` object of a campaign (`views`, `clicks`, `conversions`,
`spend`). -/
structure CampaignStats where
  views : ℚ
  clicks : ℚ
  conversions : ℚ
  spend : ℚ
deriving DecidableEq

/-- A campaign record as constructed and stored by the localStorage
repository.  Flat counters are optional (remote data may omit them), the
nested `stats` object is optional, `description` is optional. -/
structure Campaign where
  id : String
  name : String
  description : Option String
  budget : ℚ
  channel : String
  start_date : String
  end_date : String
  status : String
  user_id : String
  priority : String
  target_locations : List String
  media_files : List String
  created_at : String
  updated_at : String
  createdAt : String
  updatedAt : String
  views_count : Option ℚ
  clicks_count : Option ℚ
  conversions_count : Option ℚ
  stats : Option CampaignStats
deriving DecidableEq

/-- Fields accepted by `addCampaign` (the `CampaignCreate` payload). -/
structure CampaignCreate where
  name : String
  description : Option String
  budget : ℚ
  channel : String
  start_date : String
  end_date : String
  priority : Option String
  target_locations : Option (List String)
  media_files : Option (List String)
deriving DecidableEq

/-- Partial fields accepted by `updateCampaign` (the `CampaignUpdate`
payload); a `some` field is provided and replaces the stored value, a
`none` field is absent from the payload. -/
structure CampaignUpdate where
  name : Option String := none
  description : Option String := none
  budget : Option ℚ := none
  channel : Option String := none
  start_date : Option String := none
  end_date : Option String := none
  status : Option String := none
  priority : Option String := none
  target_locations : Option (List String) := none
  media_files : Option (List String) := none
deriving DecidableEq

/-- JavaScript `a || rest` where `a` is a possibly-undefined number:
`undefined` and `0` are falsy and fall through to `rest`. -/
def jsOrOpt (a : Option ℚ) (rest : ℚ) : ℚ :=
  match a with
  | some v => if v = 0 then rest else v
  | none => rest

/-- JavaScript `v || rest` on a (defined) number: `0` falls through. -/
def jsOrVal (v rest : ℚ) : ℚ :=
  if v = 0 then rest else v

/-! ## Persisted Local Store (localStorage adapter) -/

/-- Outcome of `localStorage.getItem` + `JSON.parse` at a key: the key is
absent, the stored string fails to deserialize (`JSON.parse` throws), or
it deserializes to a value. -/
inductive StoredCell (α : Type) where
  | absent
  | corrupt
  | value (v : α)
deriving DecidableEq

/-- `getCampaigns` of the localStorage module: the stored campaign list,
or `[]` when the key is absent or `JSON.parse` throws (caught and
logged). -/
def getCampaigns : StoredCell (List Campaign) → List Campaign
  | .absent => []
  | .corrupt => []
  | .value cs => cs

/-- `saveCampaigns`: serialize and write the full list.  A throwing write
(`ok = false`, e.g. quota exceeded) is caught and logged, leaving the cell
unchanged; no error propagates (the result type is the new cell, not an
exceptional type). -/
def saveCampaigns (ok : Bool) (cs : List Campaign) (cell : StoredCell (List Campaign)) :
    StoredCell (List Campaign) :=
  if ok then .value cs else cell

/-- Dashboard widget toggles. -/
structure DashboardWidgets where
  totalCampaigns : Bool
  activeCampaigns : Bool
  totalViews : Bool
  conversions : Bool
  totalSpend : Bool
  totalClicks : Bool
deriving DecidableEq

/-- Dashboard chart toggles. -/
structure DashboardCharts where
  performanceChart : Bool
  conversionChart : Bool
  spendChart : Bool
deriving DecidableEq

/-- Dashboard configuration: widget toggles, chart toggles, layout mode. -/
structure DashboardConfig where
  widgets : DashboardWidgets
  charts : DashboardCharts
  layout : String
deriving DecidableEq

/-- `defaultDashboardConfig`: every widget and chart enabled, grid
layout. -/
def defaultDashboardConfig : DashboardConfig :=
  { widgets :=
      { totalCampaigns := true, activeCampaigns := true, totalViews := true
        conversions := true, totalSpend := true, totalClicks := true }
    charts :=
      { performanceChart := true, conversionChart := true, spendChart := true }
    layout := "grid" }

/-- `getDashboardConfig`: the stored config, or `defaultDashboardConfig`
when the key is absent or `JSON.parse` throws (caught and logged). -/
def getDashboardConfig : StoredCell DashboardConfig → DashboardConfig
  | .absent => defaultDashboardConfig
  | .corrupt => defaultDashboardConfig
  | .value c => c

/-! ## Campaign Repository (localStorage CRUD) -/

/-- `addCampaign`: builds the new record from the create payload with the
repository's defaulting rules (`id = Date.now().toString()`, status
`draft`, mock owner id `"1"`, `priority || 'medium'`,
`target_locations || []`, `media_files || []`, all four timestamps set to
now, both counter shapes zeroed), appends it to the stored sequence and
returns it together with the new stored sequence. -/
def addCampaign (nowMs : Nat) (nowIso : String) (data : CampaignCreate)
    (stored : List Campaign) : Campaign × List Campaign :=
  let newCampaign : Campaign :=
    { id := toString nowMs
      name := data.name
      description := data.description
      budget := data.budget
      channel := data.channel
      start_date := data.start_date
      end_date := data.end_date
      status := "draft"
      user_id := "1"
      priority :=
        match data.priority with
        | some p => if p = "" then "medium" else p
        | none => "medium"
      target_locations := data.target_locations.getD []
      media_files := data.media_files.getD []
      created_at := nowIso
      updated_at := nowIso
      createdAt := nowIso
      updatedAt := nowIso
      views_count := some 0
      clicks_count := some 0
      conversions_count := some 0
      stats := some ⟨0, 0, 0, 0⟩ }
  (newCampaign, stored ++ [newCampaign])

/-- The spread `{...campaigns[index], ...updates, updated_at: now,
updatedAt: now}`: each provided field of the payload replaces the stored
value, absent fields are untouched, and both `updated_at` and the legacy
`updatedAt` alias are refreshed. -/
def applyUpdate (nowIso : String) (c : Campaign) (u : CampaignUpdate) : Campaign :=
  { c with
    name := u.name.getD c.name
    description :=
      match u.description with
      | some d => some d
      | none => c.description
    budget := u.budget.getD c.budget
    channel := u.channel.getD c.channel
    start_date := u.start_date.getD c.start_date
    end_date := u.end_date.getD c.end_date
    status := u.status.getD c.status
    priority := u.priority.getD c.priority
    target_locations := u.target_locations.getD c.target_locations
    media_files := u.media_files.getD c.media_files
    updated_at := nowIso
    updatedAt := nowIso }

/-- `updateCampaign` (localStorage): find the first record with the given
id, merge the partial payload onto it, persist, and return the merged
record; `none` with the store untouched when the id is absent. -/
def updateCampaign (nowIso : String) (stored : List Campaign) (id : String)
    (u : CampaignUpdate) : Option Campaign × List Campaign :=
  match stored with
  | [] => (none, [])
  | c :: rest =>
      if c.id = id then
        let c' := applyUpdate nowIso c u
        (some c', c' :: rest)
      else
        let r := updateCampaign nowIso rest id u
        (r.1, c :: r.2)

/-- `deleteCampaign` (localStorage): drop every record with the given id;
return whether the stored length shrank (i.e. a record was removed) and
the resulting store (unchanged when nothing matched — the code returns
early without saving). -/
def deleteCampaign (id : String) (stored : List Campaign) : Bool × List Campaign :=
  let filteredCampaigns := stored.filter (fun c => c.id != id)
  if filteredCampaigns.length = stored.length then (false, stored)
  else (true, filteredCampaigns)

/-- `getCampaignById`: first stored record with the given id, else
`none`. -/
def getCampaignById (stored : List Campaign) (id : String) : Option Campaign :=
  stored.find? (fun c => c.id == id)

/-! ## Stats Engine (`calculateRealStats`) -/

/-- One defensive metric read `c.stats?.nested || c.flat_count || 0`: the
nested value if defined and nonzero, else the flat counter if defined and
nonzero, else `0`. -/
def readMetric (nested flat : Option ℚ) : ℚ :=
  jsOrOpt nested (jsOrOpt flat 0)

/-- `c.stats?.views || c.views_count || 0`. -/
def readViews (c : Campaign) : ℚ :=
  readMetric (c.stats.map CampaignStats.views) c.views_count

/-- `c.stats?.clicks || c.clicks_count || 0`. -/
def readClicks (c : Campaign) : ℚ :=
  readMetric (c.stats.map CampaignStats.clicks) c.clicks_count

/-- `c.stats?.conversions || c.conversions_count || 0`. -/
def readConversions (c : Campaign) : ℚ :=
  readMetric (c.stats.map CampaignStats.conversions) c.conversions_count

/-- `c.stats?.spend || c.budget || 0` (spend falls back to the budget,
which is always defined). -/
def readSpend (c : Campaign) : ℚ :=
  jsOrOpt (c.stats.map CampaignStats.spend) (jsOrVal c.budget 0)

/-- `calculatePercentageChange`: the synthetic previous-period baseline.
`draw` stands for the value of `Math.floor(Math.random() * current * 0.3)`
observed by that call. -/
def calculatePercentageChange (current draw : ℚ) : ℤ :=
  let previous := max 0 (current - draw)
  if 0 < previous then round ((current - previous) / previous * 100) else 0

/-- One dashboard metric: current value plus percentage change. -/
structure Metric where
  value : ℚ
  change : ℤ
deriving DecidableEq

/-- The six dashboard metrics returned by `calculateRealStats`. -/
structure DerivedStats where
  totalCampaigns : Metric
  activeCampaigns : Metric
  totalViews : Metric
  totalClicks : Metric
  conversions : Metric
  totalSpend : Metric
deriving DecidableEq

/-- `calculateRealStats` on a campaign sequence.  `rand` supplies the six
`Math.random()`-derived draws consumed by the six
`calculatePercentageChange` calls, in source order. -/
def calculateRealStats (rand : Fin 6 → ℚ) (campaigns : List Campaign) : DerivedStats :=
  let totalCampaigns : ℚ := campaigns.length
  let activeCampaigns : ℚ := (campaigns.filter (fun c => c.status == "active")).length
  let totalViews : ℚ := campaigns.foldl (fun sum c => sum + readViews c) 0
  let totalClicks : ℚ := campaigns.foldl (fun sum c => sum + readClicks c) 0
  let totalConversions : ℚ := campaigns.foldl (fun sum c => sum + readConversions c) 0
  let totalSpend : ℚ := campaigns.foldl (fun sum c => sum + readSpend c) 0
  { totalCampaigns := ⟨totalCampaigns, calculatePercentageChange totalCampaigns (rand 0)⟩
    activeCampaigns := ⟨activeCampaigns, calculatePercentageChange activeCampaigns (rand 1)⟩
    totalViews := ⟨totalViews, calculatePercentageChange totalViews (rand 2)⟩
    totalClicks := ⟨totalClicks, calculatePercentageChange totalClicks (rand 3)⟩
    conversions := ⟨totalConversions, calculatePercentageChange totalConversions (rand 4)⟩
    totalSpend := ⟨totalSpend, calculatePercentageChange totalSpend (rand 5)⟩ }

/-! ## Reconciling Service (campaignService) -/

/-- Outcome of an axios call: a resolved response, or a rejection carrying
an HTTP-style status code (network errors, timeouts and non-2xx responses
all reject and land in the `catch` block). -/
inductive RemoteResult (α : Type) where
  | success (value : α)
  | failure (code : Nat)
deriving DecidableEq

/-- List filters accepted by `campaignService.getCampaigns`. -/
structure CampaignFilters where
  status : Option String := none
  search : Option String := none
  page : Option Nat := none
  limit : Option Nat := none
deriving DecidableEq

/-- `needle` occurs as a contiguous substring of `hay`
(JavaScript `String.prototype.includes`), on character lists. -/
def includesChars (needle : List Char) : List Char → Bool
  | [] => needle.isEmpty
  | c :: rest => needle.isPrefixOf (c :: rest) || includesChars needle rest

/-- `c.name.toLowerCase().includes(q) || (c.description &&
c.description.toLowerCase().includes(q))` with `q` the lowercased search
term. -/
def searchMatches (q : String) (c : Campaign) : Bool :=
  let searchLower := q.toLower
  includesChars searchLower.data c.name.toLower.data ||
    (match c.description with
     | some d => includesChars searchLower.data d.toLower.data
     | none => false)

/-- The status and search filtering of the local fallback of
`campaignService.getCampaigns` (an empty-string filter value is falsy in
JavaScript and skips the filter). -/
def applyFilters (filters : Option CampaignFilters) (cs : List Campaign) : List Campaign :=
  match filters with
  | none => cs
  | some f =>
      let cs1 :=
        match f.status with
        | some st => if st = "" then cs else cs.filter (fun c => c.status == st)
        | none => cs
      match f.search with
      | some q => if q = "" then cs1 else cs1.filter (searchMatches q)
      | none => cs1

/-- `filters?.limit || 10`. -/
def effLimit (filters : Option CampaignFilters) : Nat :=
  match filters.bind CampaignFilters.limit with
  | some l => if l = 0 then 10 else l
  | none => 10

/-- `filters?.page ? (filters.page - 1) * (filters.limit || 10) : 0`
(a page of `0` is falsy and yields offset `0`). -/
def effStart (filters : Option CampaignFilters) : Nat :=
  match filters.bind CampaignFilters.page with
  | some p => if p = 0 then 0 else (p - 1) * effLimit filters
  | none => 0

/-- Local fallback of `campaignService.getCampaigns`: filter by status and
search, then `slice(start, start + limit)`, reporting `total` as the
filtered count before pagination. -/
def getCampaignsLocal (stored : List Campaign) (filters : Option CampaignFilters) :
    List Campaign × Nat :=
  let filteredCampaigns := applyFilters filters stored
  (( filteredCampaigns.drop (effStart filters)).take (effLimit filters),
    filteredCampaigns.length)

namespace campaignService

/-- `campaignService.getCampaigns`: the remote response when the call
succeeds, else the local fallback. -/
def getCampaigns (remote : RemoteResult (List Campaign × Nat))
    (stored : List Campaign) (filters : Option CampaignFilters) :
    List Campaign × Nat :=
  match remote with
  | .success r => r
  | .failure _ => getCampaignsLocal stored filters

/-- `campaignService.getCampaign`: the remote campaign when the call
succeeds; on any failure (any status code, 404 included) the local record,
and `Error('Campaign not found')` only when the local lookup also
misses. -/
def getCampaign (remote : RemoteResult Campaign) (stored : List Campaign)
    (id : String) : Except String Campaign :=
  match remote with
  | .success c => .ok c
  | .failure _ =>
      match Inmax.getCampaignById stored id with
      | some campaign => .ok campaign
      | none => .error "Campaign not found"

/-- `campaignService.updateCampaign`: the remote result when the call
succeeds (local store untouched); on any failure the local update, with
`Error('Campaign not found')` when the id is absent locally.  Returns the
campaign together with the resulting local store. -/
def updateCampaign (remote : RemoteResult Campaign) (nowIso : String)
    (stored : List Campaign) (id : String) (data : CampaignUpdate) :
    Except String (Campaign × List Campaign) :=
  match remote with
  | .success c => .ok (c, stored)
  | .failure _ =>
      match Inmax.updateCampaign nowIso stored id data with
      | (some c', st') => .ok (c', st')
      | (none, _) => .error "Campaign not found"

/-- `campaignService.deleteCampaign`: nothing to do when the remote call
succeeds; on any failure the local delete, with
`Error('Campaign not found')` when nothing was removed locally.  Returns
the resulting local store. -/
def deleteCampaign (remote : RemoteResult Unit) (stored : List Campaign)
    (id : String) : Except String (List Campaign) :=
  match remote with
  | .success _ => .ok stored
  | .failure _ =>
      let r := Inmax.deleteCampaign id stored
      if r.1 then .ok r.2 else .error "Campaign not found"

end campaignService

/-! ## A process run of creations (for id uniqueness)

A run is a list of `addCampaign` calls, each observing the clock values
current at that call (`Date.now()` in milliseconds and the ISO string). -/

/-- Execute a sequence of `addCampaign` calls against an initial store;
returns the created records in call order and the final store. -/
def runCreates : List (Nat × String × CampaignCreate) → List Campaign →
    List Campaign × List Campaign
  | [], stored => ([], stored)
  | e :: rest, stored =>
      let r := addCampaign e.1 e.2.1 e.2.2 stored
      let rr := runCreates rest r.2
      (r.1 :: rr.1, rr.2)

/-! ## The spec's wording of the defensive read (for comparison)

The spec says: "nested value if present, else flat value, else zero".
This is a second definition, written from the spec's words, to be
compared with the source's `readMetric` (which follows JavaScript `||`
truthiness). -/

/-- Defensive read as the spec words it: the nested value whenever the
nested object is present (even if the value is `0`), else the flat value,
else zero. -/
def specDefensiveRead (nested flat : Option ℚ) : ℚ :=
  match nested with
  | some v => v
  | none => flat.getD 0

/-- Total views per the spec's wording of the defensive read. -/
def specTotalViews (campaigns : List Campaign) : ℚ :=
  (campaigns.map (fun c =>
    specDefensiveRead (c.stats.map CampaignStats.views) c.views_count)).sum

/-! ## Decimal decoding (to reason about `Date.now().toString()` ids) -/

/-- Decode one decimal digit character (inverse of `Nat.digitChar` on
digits below ten). -/
def decodeDigitChar (c : Char) : Nat := c.toNat - 48

/-- Decode a decimal character list to the natural number it denotes. -/
def decChars (l : List Char) : Nat :=
  l.foldl (fun a c => 10 * a + decodeDigitChar c) 0

/-! ## Sample records used in concrete instances -/

/-- A sample campaign with all-default metadata and no metric data. -/
def baseCampaign : Campaign :=
  { id := "base", name := "Base", description := none, budget := 0
    channel := "display", start_date := "2024-11-01", end_date := "2024-11-30"
    status := "draft", user_id := "1", priority := "medium"
    target_locations := [], media_files := []
    created_at := "2024-11-01T00:00:00.000Z", updated_at := "2024-11-01T00:00:00.000Z"
    createdAt := "2024-11-01T00:00:00.000Z", updatedAt := "2024-11-01T00:00:00.000Z"
    views_count := none, clicks_count := none, conversions_count := none
    stats := none }

/-- A sample create payload. -/
def samplePayload : CampaignCreate :=
  { name := "Black Friday", description := none, budget := 1000
    channel := "display", start_date := "2024-11-01", end_date := "2024-11-30"
    priority := none, target_locations := none, media_files := none }

/-- Campaigns holding views 10 and 20 and clicks 1 and 2 in the nested
stats shape (flat counters absent). -/
def nestedShapeCampaigns : List Campaign :=
  [{ baseCampaign with id := "n1", stats := some ⟨10, 1, 0, 0⟩ },
   { baseCampaign with id := "n2", stats := some ⟨20, 2, 0, 0⟩ }]

/-- The same campaigns holding views 10 and 20 and clicks 1 and 2 in the
flat counters (nested stats absent). -/
def flatShapeCampaigns : List Campaign :=
  [{ baseCampaign with id := "f1", views_count := some 10, clicks_count := some 1 },
   { baseCampaign with id := "f2", views_count := some 20, clicks_count := some 2 }]

/-! ## Helper lemmas -/

theorem decChars_foldl (l : List Char) (a : Nat) :
    l.foldl (fun a c => 10 * a + decodeDigitChar c) a = a * 10 ^ l.length + decChars l := by
  induction l generalizing a with
  | nil => simp [decChars]
  | cons c t ih =>
      simp only [List.foldl_cons, List.length_cons, decChars]
      rw [ih (10 * a + decodeDigitChar c), ih (10 * 0 + decodeDigitChar c)]
      ring

theorem decChars_cons (c : Char) (l : List Char) :
    decChars (c :: l) = decodeDigitChar c * 10 ^ l.length + decChars l := by
  show (c :: l).foldl (fun a c => 10 * a + decodeDigitChar c) 0
      = decodeDigitChar c * 10 ^ l.length + decChars l
  rw [List.foldl_cons, decChars_foldl]
  ring_nf

theorem decodeDigitChar_digitChar (d : Nat) (h : d < 10) :
    decodeDigitChar (Nat.digitChar d) = d := by
  revert h
  revert d
  decide

theorem decChars_toDigitsCore :
    ∀ (fuel n : Nat) (acc : List Char), n < fuel →
      decChars (Nat.toDigitsCore 10 fuel n acc) = n * 10 ^ acc.length + decChars acc := by
  intro fuel
  induction fuel with
  | zero => intro n acc h; omega
  | succ fuel ih =>
      intro n acc h
      simp only [Nat.toDigitsCore]
      by_cases h10 : n / 10 = 0
      · have hn : n < 10 := by omega
        simp only [h10, if_pos]
        rw [decChars_cons, Nat.mod_eq_of_lt hn, decodeDigitChar_digitChar n hn]
      · simp only [h10, if_neg, ite_false]
        have hpos : 0 < n := by omega
        have hdlt : n / 10 < fuel :=
          Nat.lt_of_lt_of_le (Nat.div_lt_self hpos (by omega)) (by omega)
        rw [ih (n / 10) (Nat.digitChar (n % 10) :: acc) hdlt, decChars_cons,
          decodeDigitChar_digitChar (n % 10) (Nat.mod_lt n (by omega)),
          List.length_cons]
        have hn : n = 10 * (n / 10) + n % 10 := by omega
        generalize n / 10 = q at hn ⊢
        generalize n % 10 = r at hn ⊢
        rw [hn]
        ring

theorem decChars_toDigits (n : Nat) : decChars (Nat.toDigits 10 n) = n := by
  show decChars (Nat.toDigitsCore 10 (n + 1) n []) = n
  rw [decChars_toDigitsCore (n + 1) n [] (Nat.lt_succ_self n)]
  simp [decChars]

theorem natToString_injective : Function.Injective (fun n : Nat => toString n) := by
  intro m n h
  have h2 : Nat.toDigits 10 m = Nat.toDigits 10 n := by
    have h3 : (Nat.toDigits 10 m).asString.data = (Nat.toDigits 10 n).asString.data :=
      congrArg String.data h
    simpa [List.asString] using h3
  have h4 := congrArg decChars h2
  rwa [decChars_toDigits, decChars_toDigits] at h4

/-- The ids produced by a run of creations are the decimal renderings of
the observed clock values, in call order. -/
theorem runCreates_ids (events : List (Nat × String × CampaignCreate)) :
    ∀ stored : List Campaign,
      (runCreates events stored).1.map Campaign.id
        = events.map (fun e => toString e.1) := by
  induction events with
  | nil => intro stored; rfl
  | cons e rest ih =>
      intro stored
      simp only [runCreates, List.map_cons, ih]
      rfl

/-- `deleteCampaign` leaves no record carrying the deleted id behind, and
its boolean answer reflects prior presence. -/
theorem deleteCampaign_filter_all (id : String) (stored : List Campaign)
    (h : ∀ c ∈ stored, c.id ≠ id) :
    (stored.filter (fun c => c.id != id)).length = stored.length := by
  rw [List.filter_length_eq_length]
  intro c hc
  exact bne_iff_ne.mpr (h c hc)

/-- The update payload `{budget: 99}`. -/
def budgetOnly99 : CampaignUpdate := { budget := some 99 }

/-- Merging `{budget: 99}` onto a record rewrites exactly the budget and
the two update timestamps. -/
theorem applyUpdate_budgetOnly (nowIso : String) (c : Campaign) :
    applyUpdate nowIso c budgetOnly99
      = { c with budget := 99, updated_at := nowIso, updatedAt := nowIso } := by
  simp [applyUpdate, budgetOnly99]

/-! ## Claim theorems -/

/-- C8: the Persisted Local Store operations are total and never
propagate failures: `getCampaigns` returns the deserialized sequence, or
`[]` when the key is absent or deserialization fails; a failing
`saveCampaigns` write leaves the store unchanged without throwing; the
dashboard-config read substitutes the fixed all-enabled grid default on
absence or corruption. -/
theorem C8_local_store_total_and_silent :
    (∀ cs : List Campaign, getCampaigns (.value cs) = cs)
    ∧ getCampaigns .absent = []
    ∧ getCampaigns .corrupt = []
    ∧ (∀ (cs : List Campaign) (cell : StoredCell (List Campaign)),
        saveCampaigns true cs cell = .value cs)
    ∧ (∀ (cs : List Campaign) (cell : StoredCell (List Campaign)),
        saveCampaigns false cs cell = cell)
    ∧ getDashboardConfig .absent = defaultDashboardConfig
    ∧ getDashboardConfig .corrupt = defaultDashboardConfig
    ∧ (∀ c : DashboardConfig, getDashboardConfig (.value c) = c)
    ∧ defaultDashboardConfig.widgets = ⟨true, true, true, true, true, true⟩
    ∧ defaultDashboardConfig.charts = ⟨true, true, true⟩
    ∧ defaultDashboardConfig.layout = "grid" :=
  ⟨fun _ => rfl, rfl, rfl, fun _ _ => rfl, fun _ _ => rfl, rfl, rfl,
    fun _ => rfl, rfl, rfl, rfl⟩

/-- C9: the stats engine is deterministic in its values: two calls of
`calculateRealStats` on the same campaign sequence, with different
`Math.random()` draws, agree on the `value` component of each of the six
metrics. -/
theorem C9_stats_value_deterministic :
    ∀ (r1 r2 : Fin 6 → ℚ) (campaigns : List Campaign),
      (calculateRealStats r1 campaigns).totalCampaigns.value
        = (calculateRealStats r2 campaigns).totalCampaigns.value
      ∧ (calculateRealStats r1 campaigns).activeCampaigns.value
        = (calculateRealStats r2 campaigns).activeCampaigns.value
      ∧ (calculateRealStats r1 campaigns).totalViews.value
        = (calculateRealStats r2 campaigns).totalViews.value
      ∧ (calculateRealStats r1 campaigns).totalClicks.value
        = (calculateRealStats r2 campaigns).totalClicks.value
      ∧ (calculateRealStats r1 campaigns).conversions.value
        = (calculateRealStats r2 campaigns).conversions.value
      ∧ (calculateRealStats r1 campaigns).totalSpend.value
        = (calculateRealStats r2 campaigns).totalSpend.value := by
  intro r1 r2 campaigns
  refine ⟨?_, ?_, ?_, ?_, ?_, ?_⟩ <;> simp only [calculateRealStats]

/-- C6: `deleteCampaign` answers `true` exactly when a record with the
given id was present (and removed), and a second delete of the same id on
the resulting store always answers `false`. -/
theorem C6_delete_presence_signal :
    ∀ (id : String) (stored : List Campaign),
      ((deleteCampaign id stored).1 = true ↔ ∃ c ∈ stored, c.id = id)
      ∧ (deleteCampaign id (deleteCampaign id stored).2).1 = false := by
  intro id stored
  constructor
  · by_cases hlen : (stored.filter (fun c => c.id != id)).length = stored.length
    · rw [List.filter_length_eq_length] at hlen
      simp only [deleteCampaign, if_pos hlen]
      rw [List.filter_length_eq_length.mpr hlen]
      simp only [if_pos rfl]
      constructor
      · intro hfalse; exact absurd hfalse (by simp)
      · rintro ⟨c, hc, hcid⟩
        exact absurd (bne_iff_ne.mp (hlen c hc)) (by simp [hcid])
    · simp only [deleteCampaign, if_neg hlen]
      constructor
      · intro _
        by_contra hno
        push_neg at hno
        exact hlen (deleteCampaign_filter_all id stored hno)
      · intro _; trivial
  · by_cases hlen : (stored.filter (fun c => c.id != id)).length = stored.length
    · simp only [deleteCampaign, if_pos hlen]
    · simp only [deleteCampaign, if_neg hlen]
      have hall : ∀ c ∈ stored.filter (fun c => c.id != id), c.id ≠ id := by
        intro c hc
        exact bne_iff_ne.mp (List.mem_filter.mp hc).2
      rw [if_pos (deleteCampaign_filter_all id _ hall)]

/-- C7: `addCampaign` produces a record with status `draft`, the
placeholder owner id `"1"`, priority defaulting to `medium` and
target_locations/media_files defaulting to `[]` when absent,
`created_at = updated_at`, both metric shapes zeroed, and appends the
record to the stored sequence while returning it. -/
theorem C7_create_defaults :
    ∀ (nowMs : Nat) (nowIso : String) (data : CampaignCreate) (stored : List Campaign),
      (addCampaign nowMs nowIso data stored).1.status = "draft"
      ∧ (addCampaign nowMs nowIso data stored).1.user_id = "1"
      ∧ (data.priority = none → (addCampaign nowMs nowIso data stored).1.priority = "medium")
      ∧ (data.target_locations = none →
          (addCampaign nowMs nowIso data stored).1.target_locations = [])
      ∧ (data.media_files = none → (addCampaign nowMs nowIso data stored).1.media_files = [])
      ∧ (addCampaign nowMs nowIso data stored).1.created_at
          = (addCampaign nowMs nowIso data stored).1.updated_at
      ∧ (addCampaign nowMs nowIso data stored).1.views_count = some 0
      ∧ (addCampaign nowMs nowIso data stored).1.clicks_count = some 0
      ∧ (addCampaign nowMs nowIso data stored).1.conversions_count = some 0
      ∧ (addCampaign nowMs nowIso data stored).1.stats = some ⟨0, 0, 0, 0⟩
      ∧ (addCampaign nowMs nowIso data stored).2
          = stored ++ [(addCampaign nowMs nowIso data stored).1] := by
  intro nowMs nowIso data stored
  refine ⟨?_, ?_, ?_, ?_, ?_, ?_, ?_, ?_, ?_, ?_, ?_⟩ <;>
    first
      | (intro h; simp [addCampaign, h])
      | simp only [addCampaign]

/-- C7 witness: concrete creation of the Black Friday payload against an
empty store. -/
theorem C7_create_defaults_witness :
    (addCampaign 1700000000000 "2024-11-01T00:00:00.000Z" samplePayload []).1.priority = "medium"
    ∧ (addCampaign 1700000000000 "2024-11-01T00:00:00.000Z" samplePayload []).1.target_locations = []
    ∧ (addCampaign 1700000000000 "2024-11-01T00:00:00.000Z" samplePayload []).1.media_files = []
    ∧ (addCampaign 1700000000000 "2024-11-01T00:00:00.000Z" samplePayload []).1.status = "draft" :=
  ⟨(C7_create_defaults 1700000000000 "2024-11-01T00:00:00.000Z" samplePayload []).2.2.1 rfl,
    (C7_create_defaults 1700000000000 "2024-11-01T00:00:00.000Z" samplePayload []).2.2.2.1 rfl,
    (C7_create_defaults 1700000000000 "2024-11-01T00:00:00.000Z" samplePayload []).2.2.2.2.1 rfl,
    (C7_create_defaults 1700000000000 "2024-11-01T00:00:00.000Z" samplePayload []).1⟩

/-- C5: on the local fallback path, the service list operation reports
`total` as the filtered count before pagination, returns at most `limit`
records, applies offset `(page - 1) * limit` when a (nonzero) page is
given, and with 25 stored campaigns and `{page: 2, limit: 10}` returns
records 11 through 20 with `total = 25`. -/
theorem C5_pagination_slice :
    (∀ (stored : List Campaign) (filters : Option CampaignFilters),
        (getCampaignsLocal stored filters).2 = (applyFilters filters stored).length
      ∧ (getCampaignsLocal stored filters).1.length ≤ effLimit filters)
    ∧ (∀ (stored : List Campaign) (f : CampaignFilters) (p : Nat),
        f.page = some p → p ≠ 0 →
        (getCampaignsLocal stored (some f)).1
          = ((applyFilters (some f) stored).drop ((p - 1) * effLimit (some f))).take
              (effLimit (some f)))
    ∧ (∀ stored : List Campaign, stored.length = 25 →
        getCampaignsLocal stored (some { page := some 2, limit := some 10 })
          = ((stored.drop 10).take 10, 25)) := by
  refine ⟨?_, ?_, ?_⟩
  · intro stored filters
    refine ⟨rfl, ?_⟩
    simp [getCampaignsLocal]
  · intro stored f p hp hp0
    simp [getCampaignsLocal, effStart, hp, hp0]
  · intro stored h25
    simp [getCampaignsLocal, effStart, effLimit, applyFilters, h25]

/-- C5 witness: 25 concrete stored campaigns, page 2 with limit 10. -/
theorem C5_pagination_slice_witness :
    getCampaignsLocal (List.replicate 25 Inmax.baseCampaign)
        (some { page := some 2, limit := some 10 })
      = (((List.replicate 25 Inmax.baseCampaign).drop 10).take 10, 25) :=
  C5_pagination_slice.2.2 (List.replicate 25 Inmax.baseCampaign) (by simp)

/-- C10: on the local fallback path a default limit of 10 applies even
when the caller supplies no page and no limit: with more than 10 stored
campaigns and no filters at all, the service returns exactly the first 10
records while `total` reports the full count; with only status/search
filters supplied, it returns the first 10 matching records and `total`
the full matching count. -/
theorem C10_default_limit_ten :
    ∀ (stored : List Campaign) (st se : Option String),
      10 < stored.length →
        getCampaignsLocal stored none = (stored.take 10, stored.length)
      ∧ (getCampaignsLocal stored none).1.length = 10
      ∧ getCampaignsLocal stored (some { status := st, search := se })
          = ((applyFilters (some { status := st, search := se }) stored).take 10,
             (applyFilters (some { status := st, search := se }) stored).length) := by
  intro stored st se h
  refine ⟨?_, ?_, ?_⟩
  · simp [getCampaignsLocal, effStart, effLimit, applyFilters]
  · simp [getCampaignsLocal, effStart, effLimit, applyFilters]
    omega
  · simp [getCampaignsLocal, effStart, effLimit]

/-- C10 witness: 11 concrete stored campaigns, no filters. -/
theorem C10_default_limit_ten_witness :
    getCampaignsLocal (List.replicate 11 Inmax.baseCampaign) none
      = ((List.replicate 11 Inmax.baseCampaign).take 10, 11)
    ∧ (getCampaignsLocal (List.replicate 11 Inmax.baseCampaign) none).1.length = 10 := by
  have h := C10_default_limit_ten (List.replicate 11 Inmax.baseCampaign) none none (by simp)
  exact ⟨by simpa using h.1, h.2.1⟩

/-- A campaign carrying a present nested stats object whose `views` is
`0` alongside a flat `views_count` of `10`. -/
def zeroNestedCampaign : Campaign :=
  { baseCampaign with stats := some ⟨0, 0, 0, 0⟩, views_count := some 10 }

/-- C1 counterexample: on a campaign whose nested stats object is present
with `views = 0` while the flat counter holds `10`, the code's `||`-read
yields totalViews `10`, whereas the claimed "nested value if present,
else flat" read yields `0`: the code does not prefer a present nested
value when that value is zero. -/
theorem C1_present_zero_nested_counterexample :
    (calculateRealStats (fun _ => 0) [zeroNestedCampaign]).totalViews.value = 10
    ∧ specTotalViews [zeroNestedCampaign] = 0
    ∧ (10 : ℚ) ≠ 0 := by
  refine ⟨?_, ?_, by norm_num⟩
  · simp [calculateRealStats, zeroNestedCampaign, baseCampaign, readViews, readMetric, jsOrOpt]
  · simp [specTotalViews, specDefensiveRead, zeroNestedCampaign, baseCampaign]

/-- C1 amended: the stats engine reads each campaign with JavaScript
truthiness — the nested stats value if present and nonzero, else the flat
counter if present and nonzero, else zero (a present nested zero falls
through to the flat counter) — and aggregates those reads; for campaigns
holding views 10 and 20 and clicks 1 and 2, totalViews = 30 and
totalClicks = 3 whether the values live in the nested or the flat
shape. -/
theorem C1_truthy_defensive_aggregation :
    (∀ (v : ℚ) (flat : Option ℚ),
        readMetric (some v) flat = if v = 0 then readMetric none flat else v)
    ∧ (∀ w : ℚ, readMetric none (some w) = if w = 0 then 0 else w)
    ∧ readMetric none none = 0
    ∧ (∀ (rand : Fin 6 → ℚ) (campaigns : List Campaign),
        (calculateRealStats rand campaigns).totalViews.value
          = campaigns.foldl (fun sum c => sum + readViews c) 0
        ∧ (calculateRealStats rand campaigns).totalClicks.value
          = campaigns.foldl (fun sum c => sum + readClicks c) 0)
    ∧ (∀ rand : Fin 6 → ℚ,
        (calculateRealStats rand nestedShapeCampaigns).totalViews.value = 30
        ∧ (calculateRealStats rand nestedShapeCampaigns).totalClicks.value = 3
        ∧ (calculateRealStats rand flatShapeCampaigns).totalViews.value = 30
        ∧ (calculateRealStats rand flatShapeCampaigns).totalClicks.value = 3) := by
  refine ⟨?_, ?_, rfl, ?_, ?_⟩
  · intro v flat
    by_cases hv : v = 0 <;> simp [readMetric, jsOrOpt, hv]
  · intro w
    by_cases hw : w = 0 <;> simp [readMetric, jsOrOpt, hw]
  · intro rand campaigns
    exact ⟨by simp only [calculateRealStats], by simp only [calculateRealStats]⟩
  · intro rand
    refine ⟨?_, ?_, ?_, ?_⟩ <;>
      simp [calculateRealStats, nestedShapeCampaigns, flatShapeCampaigns, baseCampaign,
        readViews, readClicks, readMetric, jsOrOpt] <;> norm_num

/-- C2 counterexample: two `addCampaign` calls that observe the same
millisecond clock value (`Date.now()` returns the same number) produce
the same id, so a process run does not always yield pairwise distinct
identifiers. -/
theorem C2_same_millisecond_collision :
    ¬ (((runCreates [(5, "t", samplePayload), (5, "t", samplePayload)] []).1.map
        Campaign.id).Nodup) := by
  rw [runCreates_ids]
  simp

/-- C2 amended: creating N campaigns in one process run yields N pairwise
distinct identifiers provided each call observes a distinct
`Date.now()` millisecond value (ids are the decimal rendering of that
clock value; calls within the same millisecond collide). -/
theorem C2_distinct_clock_distinct_ids :
    ∀ (events : List (Nat × String × CampaignCreate)) (stored : List Campaign),
      (events.map Prod.fst).Nodup →
      ((runCreates events stored).1.map Campaign.id).Nodup := by
  intro events stored h
  rw [runCreates_ids]
  have h2 : events.map (fun e => toString e.1)
      = (events.map Prod.fst).map (fun n : Nat => toString n) := by
    rw [List.map_map]; rfl
  rw [h2]
  exact h.map natToString_injective

/-- C2 witness: two creations at distinct clock values. -/
theorem C2_distinct_clock_distinct_ids_witness :
    ((runCreates [(1, "a", samplePayload), (2, "b", samplePayload)] []).1.map
        Campaign.id).Nodup :=
  C2_distinct_clock_distinct_ids [(1, "a", samplePayload), (2, "b", samplePayload)] []
    (by decide)

/-- C3 counterexample: a remote 404 on `getCampaign` does not surface the
`CampaignNotFound` domain error when the record exists locally: the
service falls back and returns the local record instead. -/
theorem C3_remote404_falls_back :
    campaignService.getCampaign (.failure 404) [baseCampaign] "base" = .ok baseCampaign
    ∧ (Except.ok baseCampaign ≠ (Except.error "Campaign not found" : Except String Campaign)) := by
  constructor
  · simp [campaignService.getCampaign, getCampaignById, baseCampaign]
  · intro h
    cases h

/-- C3 amended: a remote 404 on get/update/delete is treated like every
other remote failure: the service falls back to the local repository, and
the `'Campaign not found'` domain error reaches the caller exactly when
the local path misses too; when the record exists locally, the caller
receives the local result and cannot tell a remote 404 occurred. -/
theorem C3_notfound_iff_local_miss :
    ∀ (stored : List Campaign) (id nowIso : String) (data : CampaignUpdate),
      (campaignService.getCampaign (.failure 404) stored id = .error "Campaign not found"
        ↔ getCampaignById stored id = none)
      ∧ (∀ c, getCampaignById stored id = some c →
          campaignService.getCampaign (.failure 404) stored id = .ok c)
      ∧ (campaignService.updateCampaign (.failure 404) nowIso stored id data
            = .error "Campaign not found"
        ↔ (updateCampaign nowIso stored id data).1 = none)
      ∧ (campaignService.deleteCampaign (.failure 404) stored id = .error "Campaign not found"
        ↔ (deleteCampaign id stored).1 = false) := by
  intro stored id nowIso data
  refine ⟨?_, ?_, ?_, ?_⟩
  · cases h : getCampaignById stored id <;>
      simp [campaignService.getCampaign, h]
  · intro c h
    simp [campaignService.getCampaign, h]
  · rcases h : updateCampaign nowIso stored id data with ⟨r, st⟩
    cases r <;> simp [campaignService.updateCampaign, h]
  · rcases h : deleteCampaign id stored with ⟨b, st⟩
    cases b <;> simp [campaignService.deleteCampaign, h]

/-- C3 witness: against a one-record local store, a remote 404 yields the
domain error for a missing id and the local record for a present id. -/
theorem C3_notfound_iff_local_miss_witness :
    campaignService.getCampaign (.failure 404) [baseCampaign] "missing"
        = .error "Campaign not found"
    ∧ campaignService.getCampaign (.failure 404) [baseCampaign] "base" = .ok baseCampaign :=
  ⟨(C3_notfound_iff_local_miss [baseCampaign] "missing" "t" {}).1.mpr (by decide),
   (C3_notfound_iff_local_miss [baseCampaign] "base" "t" {}).2.1 baseCampaign (by decide)⟩

/-- C4 counterexample: `update(id, {budget: 99})` also rewrites the
legacy `updatedAt` alias, a stored field other than `budget` and
`updated_at`: on a record whose `updatedAt` was the November timestamp,
updating at a December instant leaves `updatedAt` equal to the December
instant, not unchanged. -/
theorem C4_updatedAt_alias_counterexample :
    ((updateCampaign "2024-12-01T00:00:00.000Z" [baseCampaign] "base" budgetOnly99).1.map
        Campaign.updatedAt) = some "2024-12-01T00:00:00.000Z"
    ∧ baseCampaign.updatedAt = "2024-11-01T00:00:00.000Z"
    ∧ ("2024-12-01T00:00:00.000Z" : String) ≠ "2024-11-01T00:00:00.000Z" := by
  refine ⟨?_, rfl, by decide⟩
  simp [updateCampaign, baseCampaign, applyUpdate, budgetOnly99]

/-- C4 amended: `update(id, {budget: 99})` on an existing record changes
only `budget`, `updated_at`, and the legacy `updatedAt` alias; every
other stored field is unchanged.  The merge is shallow: each provided
field replaces the prior value, unset fields are untouched, and the id
and creation timestamps are never rewritten. -/
theorem C4_update_budget_frame :
    ∀ (nowIso : String) (stored : List Campaign) (id : String),
      ((updateCampaign nowIso stored id budgetOnly99).1 = none ↔ ∀ c ∈ stored, c.id ≠ id)
      ∧ (∀ c', (updateCampaign nowIso stored id budgetOnly99).1 = some c' →
          ∃ c ∈ stored, c.id = id
            ∧ c' = { c with budget := 99, updated_at := nowIso, updatedAt := nowIso })
      ∧ (∀ (c : Campaign) (u : CampaignUpdate),
          (applyUpdate nowIso c u).id = c.id
          ∧ (applyUpdate nowIso c u).created_at = c.created_at
          ∧ (applyUpdate nowIso c u).createdAt = c.createdAt
          ∧ (applyUpdate nowIso c u).budget = u.budget.getD c.budget
          ∧ (applyUpdate nowIso c u).updated_at = nowIso
          ∧ (applyUpdate nowIso c u).updatedAt = nowIso) := by
  intro nowIso stored id
  refine ⟨?_, ?_, ?_⟩
  · induction stored with
    | nil => simp [updateCampaign]
    | cons c rest ih =>
        by_cases hc : c.id = id
        · simp [updateCampaign, hc]
        · simp only [updateCampaign, if_neg hc]
          simpa [hc] using ih
  · induction stored with
    | nil => simp [updateCampaign]
    | cons c rest ih =>
        intro c' hc'
        by_cases hc : c.id = id
        · refine ⟨c, List.mem_cons_self c rest, hc, ?_⟩
          rw [← applyUpdate_budgetOnly nowIso c]
          simpa [updateCampaign, hc] using hc'.symm
        · simp only [updateCampaign, if_neg hc] at hc'
          obtain ⟨a, ha, haid, heq⟩ := ih c' hc'
          exact ⟨a, List.mem_cons_of_mem c ha, haid, heq⟩
  · intro c u
    exact ⟨rfl, rfl, rfl, rfl, rfl, rfl⟩

/-- C4 witness: updating the base record's budget at a concrete instant
yields exactly the budget/timestamp rewrite; updating a missing id
yields the not-found signal. -/
theorem C4_update_budget_frame_witness :
    (∃ c ∈ [baseCampaign], c.id = "base"
      ∧ applyUpdate "T1" baseCampaign budgetOnly99
          = { c with budget := 99, updated_at := "T1", updatedAt := "T1" })
    ∧ (updateCampaign "T1" ([] : List Campaign) "x" budgetOnly99).1 = none
    ∧ (applyUpdate "T1" baseCampaign budgetOnly99).created_at = baseCampaign.created_at :=
  ⟨(C4_update_budget_frame "T1" [baseCampaign] "base").2.1
      (applyUpdate "T1" baseCampaign budgetOnly99) (by simp [updateCampaign, baseCampaign]),
   (C4_update_budget_frame "T1" [] "x").1.mpr (by simp),
   ((C4_update_budget_frame "T1" [] "x").2.2 baseCampaign budgetOnly99).2.1⟩

end Inmax
